import Mathlib

/-
Verification of the Multimodal Request Gateway of the Google-Connect-
repository (offline humanitarian AI toolkit).

The development shallowly embeds the client-side gateway implemented in
`src/frontend/pi-client-multimodal.js` (class `MultimodalAIStationClient`:
station discovery, tiered-timeout dispatch, vision result cache, the
individual request methods) and the vision pipeline orchestrator of
`src/frontend/gemmorandum-multimodal.js` /
`src/frontend/gemmorandum-multimodal-fixed.js`
(`GemmorandumMultimodal.processImageWithServerVision`).

Network effects are modeled by explicit oracles: a `probe` oracle gives the
outcome of the GET `/api/status` fetch that `testConnection` issues against a
base URL, a `caps` oracle gives the JSON that `updateCapabilities` reads, and
each POST dispatch of `makeRequest` is driven by one `ReqOutcome` value
describing what the single `fetch` of that call does (reject, or respond
after a given number of milliseconds with a given HTTP status and body).
JS `Map` objects are modeled as insertion-ordered association lists, JS
numbers as `Nat` where only comparison and aggregation matter, and the JS
32-bit bitwise coercion (`hash & hash`, `<< 5`) as explicit arithmetic
modulo 2^32 on `Int`.
-/

namespace GoogleConnect

/-! ## JS 32-bit hashing (`MultimodalAIStationClient.hashString`) -/

/-- JS `ToInt32`: reduce an integer into the signed 32-bit range, as the JS
bitwise operators (`<<`, `&`) do. -/
def toInt32 (n : Int) : Int :=
  (n + 2 ^ 31) % 2 ^ 32 - 2 ^ 31

/-- One loop iteration of `hashString`:
`hash = ((hash << 5) - hash) + char; hash = hash & hash`.
`hash << 5` coerces to int32 and multiplies by 32; the subtraction and the
addition are exact; `hash & hash` coerces the result back to int32. -/
def hashStep (h : Int) (c : Nat) : Int :=
  toInt32 (toInt32 (h * 32) - h + c)

/-- Digit character for base-36 rendering: `0`-`9` then `a`-`z`,
as produced by JS `Number.prototype.toString(36)`. -/
def base36Digit (d : Nat) : Char :=
  if d < 10 then Char.ofNat (48 + d) else Char.ofNat (87 + d)

/-- Digit accumulator for base-36 rendering.  The structural `fuel`
argument only bounds the recursion depth; 40 digits cover every value below
`36 ^ 40`, far beyond the 32-bit range that `hashString` produces. -/
def natToBase36Go : Nat → Nat → List Char → List Char
  | 0, _, acc => acc
  | fuel + 1, n, acc =>
    if n = 0 then acc
    else natToBase36Go fuel (n / 36) (base36Digit (n % 36) :: acc)

/-- Base-36 rendering of a natural number, lowercase digits. -/
def natToBase36 (n : Nat) : String :=
  if n = 0 then "0" else String.mk (natToBase36Go 40 n [])

/-- JS `Number.prototype.toString(36)` on an int32 value: a leading minus
sign for negative values, then the base-36 digits of the magnitude. -/
def intToBase36 (i : Int) : String :=
  if i < 0 then "-" ++ natToBase36 i.natAbs else natToBase36 i.toNat

/-- `MultimodalAIStationClient.hashString`: the 32-bit rolling hash
(`hash * 31 + charCode` in int32 arithmetic) rendered in base 36.
Characters stand for the UTF-16 code units that `charCodeAt` yields; the
two notions agree on the basic-multilingual-plane strings used here. -/
def hashString (s : String) : String :=
  intToBase36 (s.data.foldl (fun h c => hashStep h c.toNat) 0)

/-- `MultimodalAIStationClient.generateCacheKey`:
`` `${type}_${imageHash}_${additionalHash}` ``. -/
def generateCacheKey (type : String) (imageData : String) (additional : String) : String :=
  type ++ "_" ++ hashString imageData ++ "_" ++ hashString additional

/-! ## JS `Map` as an insertion-ordered association list -/

/-- `Map.prototype.has`. -/
def mapHas (m : List (String × V)) (k : String) : Bool :=
  m.any (fun p => p.1 == k)

/-- `Map.prototype.get` (`none` = `undefined`). -/
def mapGet (m : List (String × V)) (k : String) : Option V :=
  (m.find? (fun p => p.1 == k)).map Prod.snd

/-- `Map.prototype.delete`: removes the entry with the given key, keeping
the order of the others. -/
def mapDelete (m : List (String × V)) (k : String) : List (String × V) :=
  m.filter (fun p => p.1 != k)

/-- `Map.prototype.set`: updating an existing key keeps its insertion
position; a new key is appended at the end. -/
def mapSet (m : List (String × V)) (k : String) (v : V) : List (String × V) :=
  if mapHas m k then m.map (fun p => if p.1 == k then (k, v) else p)
  else m ++ [(k, v)]

/-- `map.keys().next().value`: the first-inserted key. -/
def mapFirstKey (m : List (String × V)) : Option String :=
  m.head?.map Prod.fst

/-! ## Client data model (`MultimodalAIStationClient` fields) -/

/-- `this.capabilities`. -/
structure Capabilities where
  multimodal : Bool
  vision_processing : Bool
  server_mode : String
  model_type : String
deriving DecidableEq, Repr

/-- The `/api/status` JSON fields read by `updateCapabilities`; `none`
stands for an absent field (JS `undefined`, defaulted with `||`). -/
structure CapData where
  multimodal_enabled : Option Bool
  vision_processing : Option Bool
  mode : Option String
  model_type : Option String
deriving DecidableEq, Repr

/-- Client state: the mutable fields of `MultimodalAIStationClient`, plus
`savedStationURL` which models the `localStorage` entry `aiStationURL`
that `detectStation` reads and writes.  `V` is the type of the values
stored in the vision cache (arbitrary JS response objects). -/
structure ClientState (V : Type) where
  stationURL : Option String
  isConnected : Bool
  connectionAttempts : Nat
  maxAttempts : Nat
  timeout : Nat
  visionTimeout : Nat
  translationTimeout : Nat
  commonIPs : List String
  visionCache : List (String × V)
  maxCacheSize : Nat
  capabilities : Capabilities
  savedStationURL : Option String
deriving DecidableEq, Repr

/-- The built-in `this.commonIPs` candidate list. -/
def commonIPsDefault : List String :=
  ["localhost:8080", "127.0.0.1:8080", "192.168.1.87:8080",
   "192.168.1.200:8080", "192.168.0.200:8080", "10.0.0.200:8080",
   "172.16.0.200:8080", "192.168.4.1:8080", "10.42.0.1:8080"]

/-- The mDNS/Bonjour names tried by `detectStation` after `commonIPs`. -/
def mdnsNames : List String :=
  ["refugee-connect.local:8080", "ai-station.local:8080",
   "raspberrypi.local:8080", "gemma-station.local:8080"]

/-- The constructor of `MultimodalAIStationClient`, including
`checkURLParameter` (an `ai_server` URL parameter is unshifted onto
`commonIPs`).  `saved` is the current `localStorage` `aiStationURL` entry. -/
def initClient (saved : Option String) (aiServerParam : Option String) : ClientState V :=
  { stationURL := none
    isConnected := false
    connectionAttempts := 0
    maxAttempts := 3
    timeout := 600000
    visionTimeout := 600000
    translationTimeout := 900000
    commonIPs :=
      match aiServerParam with
      | some a => a :: commonIPsDefault
      | none => commonIPsDefault
    visionCache := []
    maxCacheSize := 50
    capabilities :=
      { multimodal := false, vision_processing := false
        server_mode := "unknown", model_type := "unknown" }
    savedStationURL := saved }

/-- API endpoints (`this.endpoints`). -/
def endpointStatus : String := "/api/status"

def endpointTranslate : String := "/api/translate"

def endpointSearch : String := "/api/search"

def endpointChat : String := "/api/chat"

def endpointVisionOCR : String := "/api/vision/ocr"

def endpointVisionDocument : String := "/api/vision/document"

def endpointVisionMedical : String := "/api/vision/medical"

def endpointMultimodalChat : String := "/api/multimodal/chat"

/-! ## Station discovery (`detectStation`, `testConnection`) -/

/-- Outcome of the GET `/api/status` fetch issued by `testConnection`
against a base URL: the fetch rejects (host unreachable), or a response
arrives after `arrivalMs` milliseconds with `ok` flag and a `status`
JSON field. -/
inductive ProbeOutcome where
  | noResponse
  | response (arrivalMs : Nat) (ok : Bool) (status : String)
deriving DecidableEq, Repr

/-- `testConnection`: 3000 ms `AbortController` budget; a response counts
only if `response.ok` and `data.status` is `ready`, `ok` or `online`.
An aborted or rejected fetch is caught and yields `false`. -/
def testConnection (probe : String → ProbeOutcome) (url : String) : Bool :=
  match probe url with
  | .noResponse => false
  | .response arrivalMs ok status =>
    if 3000 ≤ arrivalMs then false
    else ok && (status == "ready" || status == "ok" || status == "online")

/-- `updateCapabilities`: re-fetch `/api/status` and overwrite
`this.capabilities`, defaulting absent fields; a failed fetch is caught
and leaves the capabilities unchanged. -/
def updateCapabilities (caps : String → Option CapData) (url : String)
    (s : ClientState V) : ClientState V :=
  match caps url with
  | some d =>
    { s with
      capabilities :=
        { multimodal := d.multimodal_enabled.getD false
          vision_processing := d.vision_processing.getD false
          server_mode := d.mode.getD "unknown"
          model_type := d.model_type.getD "unknown" } }
  | none => s

/-- The candidate-scanning loops of `detectStation` (the `commonIPs` loop
followed by the mDNS loop, here over the concatenated list): prefix
`http://`, probe, and adopt + persist the first hit.  Returns the success
flag, the new state, and the trace of probed URLs. -/
def scanCandidates (probe : String → ProbeOutcome) (caps : String → Option CapData)
    (s : ClientState V) : List String → Bool × ClientState V × List String
  | [] => (false, { s with isConnected := false }, [])
  | ip :: rest =>
    let url := "http://" ++ ip
    if testConnection probe url then
      (true,
       updateCapabilities caps url
         { s with stationURL := some url, isConnected := true,
                  savedStationURL := some url },
       [url])
    else
      let r := scanCandidates probe caps s rest
      (r.1, r.2.1, url :: r.2.2)

/-- `detectStation`: the saved `localStorage` address is probed first; on
failure the candidate list (`commonIPs` then mDNS names) is scanned in
order.  Returns the success flag, the new state, and the ordered trace of
probed URLs. -/
def detectStation (probe : String → ProbeOutcome) (caps : String → Option CapData)
    (s : ClientState V) : Bool × ClientState V × List String :=
  match s.savedStationURL with
  | some saved =>
    if testConnection probe saved then
      (true,
       updateCapabilities caps saved
         { s with stationURL := some saved, isConnected := true },
       [saved])
    else
      let r := scanCandidates probe caps s (s.commonIPs ++ mdnsNames)
      (r.1, r.2.1, saved :: r.2.2)
  | none => scanCandidates probe caps s (s.commonIPs ++ mdnsNames)

/-- The full ordered probe list of one `detectStation` run: the persisted
address (when present), then `commonIPs`, then the mDNS names, the latter
two prefixed with `http://`. -/
def probeOrder (s : ClientState V) : List String :=
  (match s.savedStationURL with
   | some saved => [saved]
   | none => []) ++ (s.commonIPs ++ mdnsNames).map (fun ip => "http://" ++ ip)

/-! ## Request dispatch (`makeRequest`) -/

/-- Dispatch failures, as thrown by `makeRequest`:
`noStation` = `No AI station available`; `timeout` = the `AbortError`
branch (`Request timeout - AI station is taking too long to respond`);
`apiError` = `` `API request failed: ${status}` `` on a non-ok response;
`networkFailure` = any other fetch rejection. -/
inductive RequestError where
  | noStation
  | timeout
  | apiError (status : Nat)
  | networkFailure
deriving DecidableEq, Repr

/-- Behaviour of the single POST `fetch` of one `makeRequest` call:
it rejects with a non-abort error, or a response arrives after
`arrivalMs` milliseconds carrying the HTTP `ok` flag, the status code,
and the parsed JSON body. -/
inductive ReqOutcome (α : Type) where
  | netError
  | reply (arrivalMs : Nat) (ok : Bool) (status : Nat) (body : α)
deriving DecidableEq, Repr

/-- Substring test on character lists: `isPrefixList pat l` holds when
`pat` is a prefix of `l`. -/
def isPrefixList : List Char → List Char → Bool
  | [], _ => true
  | _ :: _, [] => false
  | a :: as, b :: bs => a == b && isPrefixList as bs

/-- `containsSub pat l`: `pat` occurs as a contiguous run inside `l`. -/
def containsSub (pat : List Char) : List Char → Bool
  | [] => isPrefixList pat []
  | c :: rest => isPrefixList pat (c :: rest) || containsSub pat rest

/-- JS `String.prototype.includes`. -/
def strContains (s pat : String) : Bool :=
  containsSub pat.data s.data

/-- `endpoint.includes('/vision/') || endpoint.includes('/multimodal/')`. -/
def isVisionEndpoint (endpoint : String) : Bool :=
  strContains endpoint "/vision/" || strContains endpoint "/multimodal/"

/-- `options.timeout || this.timeout`: JS `||` treats `0` as absent. -/
def jsOrTimeout (s : ClientState V) (optTimeout : Option Nat) : Nat :=
  match optTimeout with
  | some t => if t == 0 then s.timeout else t
  | none => s.timeout

/-- The timeout budget `makeRequest` arms for a given endpoint:
vision and multimodal endpoints use `this.visionTimeout`, every other
endpoint uses `options.timeout || this.timeout`. -/
def actualTimeoutFor (s : ClientState V) (endpoint : String) (optTimeout : Option Nat) : Nat :=
  if isVisionEndpoint endpoint then s.visionTimeout else jsOrTimeout s optTimeout

/-- The `try`/`catch` around the `fetch` of `makeRequest`.  A response
arriving at or after the armed budget is aborted (`AbortError`), which is
rethrown as `timeout` WITHOUT touching `isConnected`; a non-ok response and
a rejected fetch clear `isConnected` before rethrowing. -/
def runFetch (post : ReqOutcome α) (armedTimeout : Nat) (s : ClientState V) :
    Except RequestError α × ClientState V :=
  match post with
  | .netError => (.error .networkFailure, { s with isConnected := false })
  | .reply arrivalMs ok status body =>
    if armedTimeout ≤ arrivalMs then (.error .timeout, s)
    else if ok then (.ok body, s)
    else (.error (.apiError status), { s with isConnected := false })

/-- `makeRequest`: when disconnected (or no station URL), run
`detectStation` first and fail with `noStation` if it fails; then issue
the POST under the endpoint-selected timeout budget.  The third component
records whether this call ran a discovery sequence. -/
def makeRequest (probe : String → ProbeOutcome) (caps : String → Option CapData)
    (post : ReqOutcome α) (endpoint : String) (optTimeout : Option Nat)
    (s : ClientState V) : Except RequestError α × ClientState V × Bool :=
  if s.isConnected && s.stationURL.isSome then
    ((runFetch post (actualTimeoutFor s endpoint optTimeout) s).1,
     (runFetch post (actualTimeoutFor s endpoint optTimeout) s).2, false)
  else
    if (detectStation probe caps s).1 then
      ((runFetch post (actualTimeoutFor (detectStation probe caps s).2.1 endpoint optTimeout)
          (detectStation probe caps s).2.1).1,
       (runFetch post (actualTimeoutFor (detectStation probe caps s).2.1 endpoint optTimeout)
          (detectStation probe caps s).2.1).2, true)
    else
      (.error .noStation, (detectStation probe caps s).2.1, true)

/-! ## Vision result cache (`cacheVisionResult`) -/

/-- `cacheVisionResult`: when the cache is at (or above) `maxCacheSize`,
delete the first-inserted key, then `set` the new entry. -/
def cacheVisionResult (s : ClientState V) (key : String) (result : V) : ClientState V :=
  let cache :=
    if s.maxCacheSize ≤ s.visionCache.length then
      match mapFirstKey s.visionCache with
      | some firstKey => mapDelete s.visionCache firstKey
      | none => s.visionCache
    else s.visionCache
  { s with visionCache := mapSet cache key result }

/-! ## Request methods

Each method is driven by the oracles of its one `makeRequest` call.  The
third component of a vision method's result records whether the method
reached `makeRequest` at all (`false` = answered from the cache). -/

/-- `serverOCR`: cache lookup under `generateCacheKey('ocr', image,
language)`, then dispatch to `/api/vision/ocr` and cache a successful
result; errors are rethrown.  (`has` followed by `get` on the same key is
modeled as one `mapGet`.) -/
def serverOCR (probe : String → ProbeOutcome) (caps : String → Option CapData)
    (post : ReqOutcome V) (imageData language : String) (useCache : Bool)
    (s : ClientState V) : Except RequestError V × ClientState V × Bool :=
  let cacheKey := generateCacheKey "ocr" imageData language
  match (if useCache then mapGet s.visionCache cacheKey else none) with
  | some v => (.ok v, s, false)
  | none =>
    let r := makeRequest probe caps post endpointVisionOCR none s
    match r.1 with
    | .ok result =>
      (.ok result,
       (if useCache then cacheVisionResult r.2.1 cacheKey result else r.2.1), true)
    | .error e => (.error e, r.2.1, true)

/-- `analyzeDocument`: as `serverOCR`, with kind `document`, the document
type as auxiliary key input, and endpoint `/api/vision/document`. -/
def analyzeDocument (probe : String → ProbeOutcome) (caps : String → Option CapData)
    (post : ReqOutcome V) (imageData documentType : String) (useCache : Bool)
    (s : ClientState V) : Except RequestError V × ClientState V × Bool :=
  let cacheKey := generateCacheKey "document" imageData documentType
  match (if useCache then mapGet s.visionCache cacheKey else none) with
  | some v => (.ok v, s, false)
  | none =>
    let r := makeRequest probe caps post endpointVisionDocument none s
    match r.1 with
    | .ok result =>
      (.ok result,
       (if useCache then cacheVisionResult r.2.1 cacheKey result else r.2.1), true)
    | .error e => (.error e, r.2.1, true)

/-- `multimodalChat`: the cache is keyed and consulted only when an image
is attached (`imageData && useCache`); text-only chats go straight to
`/api/multimodal/chat` and never write the cache. -/
def multimodalChat (probe : String → ProbeOutcome) (caps : String → Option CapData)
    (post : ReqOutcome V) (text : String) (imageData : Option String)
    (useCache : Bool) (s : ClientState V) :
    Except RequestError V × ClientState V × Bool :=
  let cacheKey : Option String :=
    match imageData with
    | some img => if useCache then some (generateCacheKey "chat" img text) else none
    | none => none
  match cacheKey.bind (mapGet s.visionCache) with
  | some v => (.ok v, s, false)
  | none =>
    let r := makeRequest probe caps post endpointMultimodalChat none s
    match r.1 with
    | .ok result =>
      (.ok result,
       (match cacheKey with
        | some k => cacheVisionResult r.2.1 k result
        | none => r.2.1), true)
    | .error e => (.error e, r.2.1, true)

/-- The `/api/translate` response fields that `translate` inspects
(`none` = absent). -/
structure TranslateResp where
  translated_text : Option String
  from_language : Option String
  to_language : Option String
deriving DecidableEq, Repr

/-- What `translate` hands back on success: the transformed shape
(`translated_text` present) or the raw response. -/
inductive TranslateResult where
  | transformed (translation : String) (from_language to_language : Option String)
  | raw (r : TranslateResp)
deriving DecidableEq, Repr

/-- `translate`: dispatch to `/api/translate` with
`options.timeout = this.translationTimeout`; on success transform
`translated_text` into the frontend shape when it is truthy (present and
non-empty, per JS `if (result && result.translated_text)`), else return
the raw response; errors are rethrown. -/
def translate (probe : String → ProbeOutcome) (caps : String → Option CapData)
    (post : ReqOutcome TranslateResp) (text fromLang toLang context : String)
    (s : ClientState V) : Except RequestError TranslateResult × ClientState V × Bool :=
  let r := makeRequest probe caps post endpointTranslate (some s.translationTimeout) s
  match r.1 with
  | .ok resp =>
    match resp.translated_text with
    | some t =>
      if t == "" then (.ok (.raw resp), r.2.1, r.2.2)
      else (.ok (.transformed t resp.from_language resp.to_language), r.2.1, r.2.2)
    | none => (.ok (.raw resp), r.2.1, r.2.2)
  | .error e => (.error e, r.2.1, r.2.2)

/-- `chatWithGemma`: dispatch to `/api/chat` under the default timeout;
errors are rethrown (`catch` logs and `throw error`). -/
def chatWithGemma (probe : String → ProbeOutcome) (caps : String → Option CapData)
    (post : ReqOutcome α) (message : String) (s : ClientState V) :
    Except RequestError α × ClientState V × Bool :=
  makeRequest probe caps post endpointChat none s

/-- The `/api/search` response field that `searchFamily` inspects
(`none` = absent `matches`). -/
structure SearchResp (M : Type) where
  «matches» : Option (List M)
deriving DecidableEq, Repr

/-- `searchFamily`: dispatch to `/api/search`; on success return
`result.matches || []`; the `catch` branch swallows every error and
returns `[]`. -/
def searchFamily (probe : String → ProbeOutcome) (caps : String → Option CapData)
    (post : ReqOutcome (SearchResp M)) (query : String) (s : ClientState V) :
    List M × ClientState V :=
  let r := makeRequest probe caps post endpointSearch none s
  match r.1 with
  | .ok resp => (resp.«matches».getD [], r.2.1)
  | .error _ => ([], r.2.1)

/-! ## Vision pipeline orchestrator
(`GemmorandumMultimodal.processImageWithServerVision`, identical control
flow in `gemmorandum-multimodal.js` and `gemmorandum-multimodal-fixed.js`) -/

/-- `/api/vision/ocr` response shape (JS floats carried as `Nat`, only
aggregation and field access matter). -/
structure OCRResult where
  extracted_text : String
  confidence : Nat
  language_detected : String
  character_count : Nat
  word_count : Nat
  processing_time : Nat
deriving DecidableEq, Repr

/-- `/api/vision/document` response shape; `none` = absent field
(defaulted with `|| {}` / `|| []` downstream). -/
structure DocResult where
  document_type : String
  completion_percentage : Nat
  critical_fields : Option (List String)
  extracted_fields : Option (List (String × String))
  processing_time : Nat
deriving DecidableEq, Repr

/-- The `this.formData` record built by `processVisionResults`. -/
structure FormData where
  extractedText : String
  documentType : String
  detectedLanguage : String
  extractedFields : List (String × String)
  criticalFields : List String
  processingTime : Nat
deriving DecidableEq, Repr

/-- `processVisionResults`: combine the two stage results into the session
form data. -/
def processVisionResults (ocr : OCRResult) (doc : DocResult) : FormData :=
  { extractedText := ocr.extracted_text
    documentType := doc.document_type
    detectedLanguage := ocr.language_detected
    extractedFields := doc.extracted_fields.getD []
    criticalFields := doc.critical_fields.getD []
    processingTime := ocr.processing_time + doc.processing_time }

/-- `processImageWithServerVision`, parameterized by the outcomes of its
two dispatches (`serverOCR` then `analyzeDocument`, the second awaited
only if the first did not throw).  Both stages sit in a single
`try`/`catch`: any stage error lands in `handleVisionProcessingError`,
which reports failure and produces no session result (`none`); only when
both stages succeed does `processVisionResults` run (`some`). -/
def processImageWithServerVision (stage1 : Except RequestError OCRResult)
    (stage2 : Except RequestError DocResult) : Option FormData :=
  match stage1 with
  | .error _ => none
  | .ok ocr =>
    match stage2 with
    | .error _ => none
    | .ok doc => some (processVisionResults ocr doc)

/-! ## Admission scheduler (server side) -/

/-- Priority classes, `emergency > medical > legal > translation > chat >
background`. -/
inductive Priority where
  | emergency
  | medical
  | legal
  | translation
  | chat
  | background
deriving DecidableEq, Repr

/-- Numeric urgency of a priority class (larger = more urgent). -/
def prioVal : Priority → Nat
  | .emergency => 5
  | .medical => 4
  | .legal => 3
  | .translation => 2
  | .chat => 1
  | .background => 0

/-- Admission decision for one submission. -/
inductive Decision where
  | admitted
  | queued
  | queuedAfterEvicting (droppedId : Nat) (droppedPrio : Priority)
  | rejected
deriving DecidableEq, Repr

/-- Modelled from the spec: the server-side AdmissionScheduler
(`enhanced/request_queue.py`) is not in the repository source; only its
launcher `start_enhanced_server.sh` references it.  This state follows
spec section 4.3: an executing count bounded by `maxConcurrent` and a
queue of `(id, priority)` entries in enqueue order, bounded by
`maxQueueSize`. -/
structure SchedState where
  executingCount : Nat
  queue : List (Nat × Priority)
  maxConcurrent : Nat
  maxQueueSize : Nat
deriving DecidableEq, Repr

/-- Modelled from the spec: the lowest-priority entry currently queued
(earliest-enqueued among equals). -/
def lowestQueued (q : List (Nat × Priority)) : Option (Nat × Priority) :=
  q.foldl
    (fun acc e =>
      match acc with
      | none => some e
      | some b => if prioVal e.2 < prioVal b.2 then some e else some b)
    none

/-- Modelled from the spec: the admission rule of section 4.3.
1. an executing slot free: admit immediately;
2. else queue room: enqueue;
3. else (queue full): evict the lowest-priority queued entry only when the
incoming priority is strictly higher, otherwise reject outright. -/
def submit (st : SchedState) (id : Nat) (p : Priority) : Decision × SchedState :=
  if st.executingCount < st.maxConcurrent then
    (.admitted, { st with executingCount := st.executingCount + 1 })
  else if st.queue.length < st.maxQueueSize then
    (.queued, { st with queue := st.queue ++ [(id, p)] })
  else
    match lowestQueued st.queue with
    | none => (.rejected, st)
    | some (lid, lp) =>
      if prioVal lp < prioVal p then
        (.queuedAfterEvicting lid lp,
         { st with queue := st.queue.filter (fun e => e.1 ≠ lid) ++ [(id, p)] })
      else
        (.rejected, st)

/-- Modelled from the spec: a sequence of submissions with no completions
in between, numbered from `idx`, collecting the decisions. -/
def runSubmitsAux (st : SchedState) (idx : Nat) : List Priority → List Decision × SchedState
  | [] => ([], st)
  | p :: rest =>
    let r := submit st idx p
    let rs := runSubmitsAux r.2 (idx + 1) rest
    (r.1 :: rs.1, rs.2)

/-- Modelled from the spec: run a submission sequence from a state,
ids `0, 1, 2, ...`. -/
def runSubmits (st : SchedState) (reqs : List Priority) : List Decision × SchedState :=
  runSubmitsAux st 0 reqs

/-- The admission-fairness scenario state: `maxConcurrent = 3`,
`maxQueueSize = 1`, nothing running. -/
def schedScenarioInit : SchedState :=
  { executingCount := 0, queue := [], maxConcurrent := 3, maxQueueSize := 1 }

/-- The admission-fairness scenario run: priorities
`[chat, chat, chat, emergency, chat]` submitted in order. -/
def schedScenario : List Decision × SchedState :=
  runSubmits schedScenarioInit
    [Priority.chat, Priority.chat, Priority.chat, Priority.emergency, Priority.chat]

/-! ## Shared concrete oracles and states for witnesses -/

/-- A dead network: every probe rejects. -/
def probeNone : String → ProbeOutcome := fun _ => ProbeOutcome.noResponse

/-- A capabilities fetch that always fails. -/
def capsNone : String → Option CapData := fun _ => none

/-- A freshly constructed client that has already resolved a station
(`stationURL` set, `isConnected` true), as after a successful
`detectStation`. -/
def connClientAt (saved aiServerParam : Option String) (url : String) : ClientState V :=
  { initClient saved aiServerParam with stationURL := some url, isConnected := true }

/-- The URLs a candidate list is probed under. -/
def candidateURLs (l : List String) : List String :=
  l.map (fun ip => "http://" ++ ip)

/-- A sequence of `cacheVisionResult` insertions. -/
def applyInserts (s : ClientState V) (ops : List (String × V)) : ClientState V :=
  ops.foldl (fun st p => cacheVisionResult st p.1 p.2) s

/-- A concrete OCR result whose extracted text is `"T"`. -/
def ocrT : OCRResult :=
  { extracted_text := "T", confidence := 1, language_detected := "en",
    character_count := 1, word_count := 1, processing_time := 5 }

/-- The concrete connected client used in counterexamples and witnesses. -/
def clientConn : ClientState Nat := connClientAt none none "http://localhost:8080"

/-- A network where only `192.168.1.200:8080` answers, and with a ready
status; everything else is unreachable. -/
def probeC4 : String → ProbeOutcome := fun url =>
  if url == "http://192.168.1.200:8080" then ProbeOutcome.response 100 true "ready"
  else ProbeOutcome.noResponse

/-- A connected client with capacity 2 whose cache is full. -/
def clientC6 : ClientState Nat :=
  { connClientAt (V := Nat) none none "http://localhost:8080" with
    visionCache := [("a", 1), ("b", 2)], maxCacheSize := 2 }

/-- A connected client whose cache already holds an OCR result for image
content `"img"` in English. -/
def clientC7 : ClientState Nat :=
  { connClientAt (V := Nat) none none "http://localhost:8080" with
    visionCache := [(generateCacheKey "ocr" "img" "en", 42)] }

/-- A connected client whose cache holds, under the key derived from image
content `"Aa"`, a result computed for `"Aa"`. -/
def clientC9 : ClientState Nat :=
  { connClientAt (V := Nat) none none "http://localhost:8080" with
    visionCache := [(generateCacheKey "ocr" "Aa" "en", 7)] }

/-! ## Helper lemmas: `updateCapabilities` frame -/

@[simp] lemma updateCapabilities_stationURL (caps : String → Option CapData)
    (url : String) (s : ClientState V) :
    (updateCapabilities caps url s).stationURL = s.stationURL := by
  unfold updateCapabilities; split <;> rfl

@[simp] lemma updateCapabilities_isConnected (caps : String → Option CapData)
    (url : String) (s : ClientState V) :
    (updateCapabilities caps url s).isConnected = s.isConnected := by
  unfold updateCapabilities; split <;> rfl

@[simp] lemma updateCapabilities_savedStationURL (caps : String → Option CapData)
    (url : String) (s : ClientState V) :
    (updateCapabilities caps url s).savedStationURL = s.savedStationURL := by
  unfold updateCapabilities; split <;> rfl

@[simp] lemma updateCapabilities_visionCache (caps : String → Option CapData)
    (url : String) (s : ClientState V) :
    (updateCapabilities caps url s).visionCache = s.visionCache := by
  unfold updateCapabilities; split <;> rfl

@[simp] lemma updateCapabilities_timeout (caps : String → Option CapData)
    (url : String) (s : ClientState V) :
    (updateCapabilities caps url s).timeout = s.timeout := by
  unfold updateCapabilities; split <;> rfl

@[simp] lemma updateCapabilities_visionTimeout (caps : String → Option CapData)
    (url : String) (s : ClientState V) :
    (updateCapabilities caps url s).visionTimeout = s.visionTimeout := by
  unfold updateCapabilities; split <;> rfl

@[simp] lemma updateCapabilities_translationTimeout (caps : String → Option CapData)
    (url : String) (s : ClientState V) :
    (updateCapabilities caps url s).translationTimeout = s.translationTimeout := by
  unfold updateCapabilities; split <;> rfl

@[simp] lemma updateCapabilities_maxCacheSize (caps : String → Option CapData)
    (url : String) (s : ClientState V) :
    (updateCapabilities caps url s).maxCacheSize = s.maxCacheSize := by
  unfold updateCapabilities; split <;> rfl

/-! ## Helper lemmas: `scanCandidates` and `detectStation` characterization -/

lemma scanCandidates_found (probe : String → ProbeOutcome)
    (caps : String → Option CapData) (s : ClientState V) (l : List String) (u : String)
    (h : (candidateURLs l).find? (fun x => testConnection probe x) = some u) :
    scanCandidates probe caps s l =
      (true,
       updateCapabilities caps u
         { s with stationURL := some u, isConnected := true, savedStationURL := some u },
       (candidateURLs l).takeWhile (fun x => !(testConnection probe x)) ++ [u]) := by
  induction l with
  | nil => simp [candidateURLs] at h
  | cons ip rest ih =>
    by_cases hp : testConnection probe ("http://" ++ ip)
    · have hu : u = "http://" ++ ip := by
        simp [candidateURLs, List.find?_cons_of_pos, hp] at h
        exact h.symm
      subst hu
      simp [scanCandidates, hp, candidateURLs, List.takeWhile_cons, hp]
    · have h' : (candidateURLs rest).find? (fun x => testConnection probe x) = some u := by
        simpa [candidateURLs, List.find?_cons_of_neg, hp] using h
      simp [scanCandidates, hp, ih h', candidateURLs, List.takeWhile_cons]

lemma scanCandidates_none (probe : String → ProbeOutcome)
    (caps : String → Option CapData) (s : ClientState V) (l : List String)
    (h : (candidateURLs l).find? (fun x => testConnection probe x) = none) :
    scanCandidates probe caps s l =
      (false, { s with isConnected := false }, candidateURLs l) := by
  induction l with
  | nil => simp [scanCandidates, candidateURLs]
  | cons ip rest ih =>
    by_cases hp : testConnection probe ("http://" ++ ip)
    · simp [candidateURLs, List.find?_cons_of_pos, hp] at h
    · have h' : (candidateURLs rest).find? (fun x => testConnection probe x) = none := by
        simpa [candidateURLs, List.find?_cons_of_neg, hp] using h
      simp [scanCandidates, hp, ih h', candidateURLs]

lemma detectStation_none (probe : String → ProbeOutcome)
    (caps : String → Option CapData) (s : ClientState V)
    (h : (probeOrder s).find? (fun x => testConnection probe x) = none) :
    detectStation probe caps s = (false, { s with isConnected := false }, probeOrder s) := by
  cases hs : s.savedStationURL with
  | none =>
    have h' : (candidateURLs (s.commonIPs ++ mdnsNames)).find?
        (fun x => testConnection probe x) = none := by
      simpa [probeOrder, hs, candidateURLs] using h
    simpa [detectStation, probeOrder, hs, candidateURLs]
      using scanCandidates_none probe caps s _ h'
  | some saved =>
    have hps : testConnection probe saved = false := by
      by_contra hc
      simp [probeOrder, hs, List.find?_cons_of_pos, eq_true_of_ne_false hc] at h
    have h' : (candidateURLs (s.commonIPs ++ mdnsNames)).find?
        (fun x => testConnection probe x) = none := by
      simpa [probeOrder, hs, List.find?_cons_of_neg, hps, candidateURLs] using h
    have hsc := scanCandidates_none probe caps s _ h'
    simp [detectStation, probeOrder, hs, hps, candidateURLs, hsc]

lemma detectStation_found (probe : String → ProbeOutcome)
    (caps : String → Option CapData) (s : ClientState V) (u : String)
    (h : (probeOrder s).find? (fun x => testConnection probe x) = some u) :
    (detectStation probe caps s).1 = true
    ∧ (detectStation probe caps s).2.1.stationURL = some u
    ∧ (detectStation probe caps s).2.1.isConnected = true
    ∧ (detectStation probe caps s).2.1.savedStationURL = some u
    ∧ (detectStation probe caps s).2.1.visionCache = s.visionCache
    ∧ (detectStation probe caps s).2.1.timeout = s.timeout
    ∧ (detectStation probe caps s).2.1.visionTimeout = s.visionTimeout
    ∧ (detectStation probe caps s).2.1.translationTimeout = s.translationTimeout
    ∧ (detectStation probe caps s).2.1.maxCacheSize = s.maxCacheSize
    ∧ (detectStation probe caps s).2.2 =
        (probeOrder s).takeWhile (fun x => !(testConnection probe x)) ++ [u] := by
  cases hs : s.savedStationURL with
  | none =>
    have h' : (candidateURLs (s.commonIPs ++ mdnsNames)).find?
        (fun x => testConnection probe x) = some u := by
      simpa [probeOrder, hs, candidateURLs] using h
    have hsc := scanCandidates_found probe caps s _ u h'
    simp [detectStation, probeOrder, hs, candidateURLs, hsc]
  | some saved =>
    by_cases hps : testConnection probe saved
    · have hu : u = saved := by
        simp [probeOrder, hs, List.find?_cons_of_pos, hps] at h
        exact h.symm
      subst hu
      simp [detectStation, hs, hps, probeOrder, List.takeWhile_cons]
    · have h' : (candidateURLs (s.commonIPs ++ mdnsNames)).find?
        (fun x => testConnection probe x) = some u := by
        simpa [probeOrder, hs, List.find?_cons_of_neg, hps, candidateURLs] using h
      have hsc := scanCandidates_found probe caps s _ u h'
      simp [detectStation, probeOrder, hs, hps, candidateURLs, hsc, List.takeWhile_cons]

lemma detectStation_probes_saved_first (probe : String → ProbeOutcome)
    (caps : String → Option CapData) (s : ClientState V) (saved : String)
    (hs : s.savedStationURL = some saved) :
    ((detectStation probe caps s).2.2).head? = some saved := by
  by_cases hps : testConnection probe saved <;> simp [detectStation, hs, hps]

/-! ## Helper lemmas: cache operations -/

lemma mapGet_of_mapHas_update (k : String) (v : V) (m : List (String × V))
    (h : mapHas m k = true) :
    mapGet (m.map (fun p => if p.1 == k then (k, v) else p)) k = some v := by
  induction m with
  | nil => simp [mapHas] at h
  | cons p rest ih =>
    rw [List.map_cons]
    by_cases hp : p.1 = k
    · have hfp : (if p.1 == k then (k, v) else p) = (k, v) := by simp [hp]
      rw [hfp]
      unfold mapGet
      rw [List.find?_cons_of_pos]
      · rfl
      · simp
    · have hne : (p.1 == k) = false := by simp [hp]
      have hfp : (if p.1 == k then (k, v) else p) = p := by simp [hne]
      rw [hfp]
      have h' : mapHas rest k = true := by
        simpa [mapHas, List.any_cons, hne] using h
      have hrest := ih h'
      unfold mapGet
      rw [List.find?_cons_of_neg]
      · simpa [mapGet] using hrest
      · simp [hne]

lemma mapGet_append_single (k : String) (v : V) :
    ∀ m : List (String × V), mapHas m k = false →
      mapGet (m ++ [(k, v)]) k = some v := by
  intro m
  induction m with
  | nil => simp [mapGet, mapHas]
  | cons p rest ih =>
    intro h
    have hp : (p.1 == k) = false := by
      by_contra hc
      simp [mapHas, eq_true_of_ne_false hc] at h
    have h' : mapHas rest k = false := by
      simpa [mapHas, hp] using h
    simpa [mapGet, List.find?_cons, hp] using ih h'

lemma mapGet_mapSet_self (m : List (String × V)) (k : String) (v : V) :
    mapGet (mapSet m k v) k = some v := by
  by_cases h : mapHas m k
  · simpa [mapSet, h] using mapGet_of_mapHas_update k v m h
  · have h' : mapHas m k = false := by simpa using h
    simpa [mapSet, h'] using mapGet_append_single k v m h'

lemma mapGet_cacheVisionResult_self (s : ClientState V) (k : String) (v : V) :
    mapGet (cacheVisionResult s k v).visionCache k = some v := by
  unfold cacheVisionResult
  split
  · split
    · exact mapGet_mapSet_self _ k v
    · exact mapGet_mapSet_self _ k v
  · exact mapGet_mapSet_self _ k v

lemma mapSet_length_le (m : List (String × V)) (k : String) (v : V) :
    (mapSet m k v).length ≤ m.length + 1 := by
  unfold mapSet
  split
  · simp
  · simp

lemma cacheVisionResult_length (s : ClientState V) (k : String) (v : V)
    (hle : s.visionCache.length ≤ s.maxCacheSize) (hpos : 0 < s.maxCacheSize) :
    (cacheVisionResult s k v).visionCache.length ≤ s.maxCacheSize := by
  by_cases hcap : s.maxCacheSize ≤ s.visionCache.length
  · have heq : s.visionCache.length = s.maxCacheSize := le_antisymm hle hcap
    cases hc : s.visionCache with
    | nil =>
      rw [hc] at heq
      simp at heq
      omega
    | cons e rest =>
      have hdel : (mapDelete (e :: rest) e.1).length ≤ rest.length := by
        simpa [mapDelete, List.filter_cons] using
          List.length_filter_le (fun p => p.1 != e.1) rest
      have hcap2 : s.maxCacheSize ≤ rest.length + 1 := by
        rw [hc] at hcap; simpa using hcap
      have hres : (cacheVisionResult s k v).visionCache =
          mapSet (mapDelete (e :: rest) e.1) k v := by
        simp [cacheVisionResult, hc, mapFirstKey, hcap2]
      rw [hres]
      have hset := mapSet_length_le (mapDelete (e :: rest) e.1) k v
      have hlenc : (e :: rest).length = s.maxCacheSize := by rw [← hc]; exact heq
      simp at hlenc
      omega
  · have hres : (cacheVisionResult s k v).visionCache = mapSet s.visionCache k v := by
      simp [cacheVisionResult, hcap]
    rw [hres]
    have hset := mapSet_length_le s.visionCache k v
    omega

@[simp] lemma cacheVisionResult_maxCacheSize (s : ClientState V) (k : String) (v : V) :
    (cacheVisionResult s k v).maxCacheSize = s.maxCacheSize := rfl

lemma cacheVisionResult_at_capacity (s : ClientState V) (k : String) (v : V)
    (e : String × V) (rest : List (String × V))
    (hc : s.visionCache = e :: rest)
    (hnd : rest.all (fun p => p.1 != e.1) = true)
    (hlen : s.visionCache.length = s.maxCacheSize) :
    (cacheVisionResult s k v).visionCache = mapSet rest k v := by
  have hcap2 : s.maxCacheSize ≤ rest.length + 1 := by
    rw [hc] at hlen
    simp at hlen
    omega
  have hdel : mapDelete (e :: rest) e.1 = rest := by
    unfold mapDelete
    rw [List.filter_cons]
    have hself : (e.1 != e.1) = false := by simp
    rw [hself]
    simp only [Bool.false_eq_true, if_false]
    exact List.filter_eq_self.mpr (List.all_eq_true.mp hnd)
  simp [cacheVisionResult, hc, mapFirstKey, hcap2, hdel]

lemma applyInserts_bounded (ops : List (String × V)) (s : ClientState V)
    (h : s.visionCache.length ≤ s.maxCacheSize) (hp : 0 < s.maxCacheSize) :
    (applyInserts s ops).visionCache.length ≤ s.maxCacheSize := by
  induction ops generalizing s with
  | nil => simpa [applyInserts] using h
  | cons p ops ih =>
    have h1 : (cacheVisionResult s p.1 p.2).visionCache.length ≤
        (cacheVisionResult s p.1 p.2).maxCacheSize := by
      rw [cacheVisionResult_maxCacheSize]
      exact cacheVisionResult_length s p.1 p.2 h hp
    have hp1 : 0 < (cacheVisionResult s p.1 p.2).maxCacheSize := by
      rw [cacheVisionResult_maxCacheSize]; exact hp
    have hrec := ih (cacheVisionResult s p.1 p.2) h1 hp1
    rw [cacheVisionResult_maxCacheSize] at hrec
    simpa [applyInserts, List.foldl_cons] using hrec

/-! ## Helper lemmas: `makeRequest` -/

lemma makeRequest_connected (probe : String → ProbeOutcome)
    (caps : String → Option CapData) (post : ReqOutcome α) (ep : String)
    (t : Option Nat) (s : ClientState V) (h1 : s.isConnected = true)
    (h2 : s.stationURL.isSome = true) :
    makeRequest probe caps post ep t s =
      ((runFetch post (actualTimeoutFor s ep t) s).1,
       (runFetch post (actualTimeoutFor s ep t) s).2, false) := by
  unfold makeRequest
  rw [h1, h2]
  simp

lemma makeRequest_disconnected_runs_discovery (probe : String → ProbeOutcome)
    (caps : String → Option CapData) (post : ReqOutcome α) (ep : String)
    (t : Option Nat) (s : ClientState V)
    (h : (s.isConnected && s.stationURL.isSome) = false) :
    (makeRequest probe caps post ep t s).2.2 = true := by
  unfold makeRequest
  rw [h]
  simp only [Bool.false_eq_true, if_false]
  split <;> rfl

/-! ## `makeRequest` neither reads nor writes the vision cache -/

lemma runFetch_fst (post : ReqOutcome α) (a : Nat) (s s' : ClientState V) :
    (runFetch post a s).1 = (runFetch post a s').1 := by
  cases post with
  | netError => rfl
  | reply d ok st b =>
    simp only [runFetch]
    split_ifs <;> rfl

lemma runFetch_visionCache (post : ReqOutcome α) (a : Nat) (s : ClientState V) :
    (runFetch post a s).2.visionCache = s.visionCache := by
  cases post with
  | netError => rfl
  | reply d ok st b =>
    simp only [runFetch]
    split_ifs <;> rfl

lemma actualTimeoutFor_congr (s₁ s₂ : ClientState V) (ep : String) (t : Option Nat)
    (h1 : s₁.timeout = s₂.timeout) (h2 : s₁.visionTimeout = s₂.visionTimeout) :
    actualTimeoutFor s₁ ep t = actualTimeoutFor s₂ ep t := by
  unfold actualTimeoutFor jsOrTimeout
  cases t <;> simp [h1, h2]

lemma makeRequest_visionCache (probe : String → ProbeOutcome)
    (caps : String → Option CapData) (post : ReqOutcome α) (ep : String)
    (t : Option Nat) (s : ClientState V) :
    (makeRequest probe caps post ep t s).2.1.visionCache = s.visionCache := by
  unfold makeRequest
  by_cases hcond : (s.isConnected && s.stationURL.isSome) = true
  · rw [hcond]
    simpa using runFetch_visionCache post (actualTimeoutFor s ep t) s
  · have hcond' : (s.isConnected && s.stationURL.isSome) = false := by
      simpa using hcond
    rw [hcond']
    simp only [Bool.false_eq_true, if_false]
    cases hfind : (probeOrder s).find? (fun x => testConnection probe x) with
    | none =>
      have hd := detectStation_none probe caps s hfind
      rw [hd]
      simp
    | some u =>
      have hd := detectStation_found probe caps s u hfind
      rw [hd.1]
      simp only [if_true]
      rw [runFetch_visionCache]
      exact hd.2.2.2.2.1

/-- Replacing the vision cache changes neither the result nor the
discovery flag of a `makeRequest` call: the dispatcher never reads the
cache. -/
lemma makeRequest_fst_setCache (probe : String → ProbeOutcome)
    (caps : String → Option CapData) (post : ReqOutcome α) (ep : String)
    (t : Option Nat) (s : ClientState V) (c2 : List (String × V)) :
    (makeRequest probe caps post ep t { s with visionCache := c2 }).1 =
      (makeRequest probe caps post ep t s).1 := by
  unfold makeRequest
  have hic : ({ s with visionCache := c2 } : ClientState V).isConnected = s.isConnected := rfl
  have hsu : ({ s with visionCache := c2 } : ClientState V).stationURL = s.stationURL := rfl
  have hpo : probeOrder ({ s with visionCache := c2 } : ClientState V) = probeOrder s := rfl
  by_cases hcond : (s.isConnected && s.stationURL.isSome) = true
  · rw [hic, hsu, hcond]
    have hat : actualTimeoutFor ({ s with visionCache := c2 } : ClientState V) ep t =
        actualTimeoutFor s ep t := rfl
    simp only [hat]
    exact runFetch_fst post (actualTimeoutFor s ep t) _ s
  · have hcond' : (s.isConnected && s.stationURL.isSome) = false := by
      simpa using hcond
    rw [hic, hsu, hcond']
    simp only [Bool.false_eq_true, if_false]
    cases hfind : (probeOrder s).find? (fun x => testConnection probe x) with
    | none =>
      have hdA := detectStation_none probe caps ({ s with visionCache := c2 }) (hpo ▸ hfind)
      have hdB := detectStation_none probe caps s hfind
      rw [hdA, hdB]
      rfl
    | some u =>
      have hdA := detectStation_found probe caps ({ s with visionCache := c2 }) u (hpo ▸ hfind)
      have hdB := detectStation_found probe caps s u hfind
      rw [hdA.1, hdB.1]
      simp only [if_true]
      have hto : (detectStation probe caps ({ s with visionCache := c2 } :
          ClientState V)).2.1.timeout = (detectStation probe caps s).2.1.timeout := by
        rw [hdA.2.2.2.2.2.1, hdB.2.2.2.2.2.1]
      have hvto : (detectStation probe caps ({ s with visionCache := c2 } :
          ClientState V)).2.1.visionTimeout = (detectStation probe caps s).2.1.visionTimeout := by
        rw [hdA.2.2.2.2.2.2.1, hdB.2.2.2.2.2.2.1]
      rw [actualTimeoutFor_congr _ _ ep t hto hvto]
      exact runFetch_fst post _ _ _

/-- `multimodalChat` with no image reduces to a bare dispatch. -/
lemma multimodalChat_noImage (probe : String → ProbeOutcome)
    (caps : String → Option CapData) (post : ReqOutcome V) (text : String)
    (uc : Bool) (s : ClientState V) :
    multimodalChat probe caps post text none uc s =
      ((makeRequest probe caps post endpointMultimodalChat none s).1,
       (makeRequest probe caps post endpointMultimodalChat none s).2.1,
       true) := by
  unfold multimodalChat
  cases hr : (makeRequest probe caps post endpointMultimodalChat none s).1 <;>
    simp [Option.bind, hr]

/-! ## Claim theorems -/

/-- C1 (counterexample).  The claim asserts that when Stage 1 OCR succeeds
with text `"T"` and Stage 2 document analysis returns `ServerError`, the
orchestrator's session result still contains `"T"` with a partial-failure
flag.  On the code this is false: both stages sit in one `try`/`catch`, so
the Stage 2 error lands in `handleVisionProcessingError` and the session
produces no result at all — the Stage 1 text is discarded. -/
theorem C1_counterexample :
    processImageWithServerVision (Except.ok ocrT)
      (Except.error (RequestError.apiError 500)) = none := rfl

/-- C1 (amended).  If Stage 1 succeeds but Stage 2 fails, the orchestrator
aborts the whole session and reports failure: no session result (hence no
extracted text and no fabricated document classification) is produced. -/
theorem C1_stage2_failure_aborts (ocr : OCRResult) (e : RequestError) :
    processImageWithServerVision (Except.ok ocr) (Except.error e) = none := by
  rfl

/-- C2 (counterexample).  The claim asserts that a dispatch ending in
`Timeout` marks the station unhealthy so the next dispatch must run a
fresh `discover()`.  On the code this is false: the `AbortError` branch of
the `catch` rethrows before `this.isConnected = false` is reached, so after
a timed-out dispatch the client is still marked connected and the next
dispatch is issued against the same address without any discovery. -/
theorem C2_counterexample :
    (makeRequest probeNone capsNone (ReqOutcome.reply 600000 true 200 (0 : Nat))
        endpointChat none clientConn).1 = Except.error RequestError.timeout
    ∧ (makeRequest probeNone capsNone (ReqOutcome.reply 600000 true 200 (0 : Nat))
        endpointChat none clientConn).2.1.isConnected = true
    ∧ (makeRequest probeNone capsNone (ReqOutcome.reply 0 true 200 (1 : Nat))
        endpointChat none
        (makeRequest probeNone capsNone (ReqOutcome.reply 600000 true 200 (0 : Nat))
          endpointChat none clientConn).2.1).2.2 = false := by
  exact ⟨rfl, rfl, rfl⟩

/-- C2 (amended).  For a connected client: a dispatch ending in
`NetworkFailure` returns that typed error (never retrying the call),
clears the connected state, and forces every subsequent dispatch through a
fresh `detectStation`; a dispatch ending in `Timeout` returns the typed
`timeout` error (never retrying the call) but leaves the client state —
in particular the connected flag — completely unchanged. -/
theorem C2_failure_handling (probe : String → ProbeOutcome)
    (caps : String → Option CapData) (ep : String) (t : Option Nat)
    (s : ClientState V) (h1 : s.isConnected = true)
    (h2 : s.stationURL.isSome = true) :
    ((makeRequest probe caps (ReqOutcome.netError (α := α)) ep t s).1 =
        Except.error RequestError.networkFailure
      ∧ (makeRequest probe caps (ReqOutcome.netError (α := α)) ep t s).2.1.isConnected = false
      ∧ ∀ (probe2 : String → ProbeOutcome) (caps2 : String → Option CapData)
          (post2 : ReqOutcome β) (ep2 : String) (t2 : Option Nat),
          (makeRequest probe2 caps2 post2 ep2 t2
            (makeRequest probe caps (ReqOutcome.netError (α := α)) ep t s).2.1).2.2 = true)
    ∧ ∀ (d : Nat) (ok : Bool) (st : Nat) (body : α),
        actualTimeoutFor s ep t ≤ d →
        (makeRequest probe caps (ReqOutcome.reply d ok st body) ep t s).1 =
            Except.error RequestError.timeout
          ∧ (makeRequest probe caps (ReqOutcome.reply d ok st body) ep t s).2.1 = s := by
  constructor
  · have hmc := makeRequest_connected probe caps (ReqOutcome.netError (α := α)) ep t s h1 h2
    refine ⟨?_, ?_, ?_⟩
    · rw [hmc]; rfl
    · rw [hmc]; rfl
    · intro probe2 caps2 post2 ep2 t2
      apply makeRequest_disconnected_runs_discovery
      rw [hmc]
      rfl
  · intro d ok st body hd
    have hmc := makeRequest_connected probe caps (ReqOutcome.reply d ok st body) ep t s h1 h2
    have hrf : runFetch (ReqOutcome.reply d ok st body) (actualTimeoutFor s ep t) s =
        (Except.error RequestError.timeout, s) := by
      simp only [runFetch]
      rw [if_pos hd]
    rw [hmc, hrf]
    exact ⟨rfl, rfl⟩

/-- C2 (witness): the amended theorem applied to a concrete connected
client, a dropped connection and a 700000 ms reply. -/
theorem C2_witness :
    (makeRequest probeNone capsNone (ReqOutcome.netError (α := Nat))
        endpointChat none clientConn).2.1.isConnected = false
    ∧ (makeRequest probeNone capsNone (ReqOutcome.reply 700000 true 200 (5 : Nat))
        endpointChat none clientConn).1 = Except.error RequestError.timeout := by
  have h := C2_failure_handling (α := Nat) (β := Nat) probeNone capsNone
    endpointChat none clientConn rfl rfl
  exact ⟨h.1.2.1, (h.2 700000 true 200 5 (by decide)).1⟩

/-- C3 (counterexample).  The claim asserts that in the scenario
`[chat, chat, chat, emergency, chat]` with `maxConcurrent = 3` and
`maxQueueSize = 1`, the fourth submission (emergency) evicts a queued chat
(reported `OverflowDropped`).  Under the spec's own admission rule this is
false: after three chats the three executing slots are full but the queue
is empty, so the emergency is simply enqueued — no submission of the run
evicts anything. -/
theorem C3_counterexample :
    schedScenario.1.get? 3 = some Decision.queued
    ∧ (schedScenario.1.all fun d =>
        match d with
        | Decision.queuedAfterEvicting _ _ => false
        | _ => true) = true := by
  decide

/-- C3 (amended).  With `maxConcurrent = 3`, `maxQueueSize = 1` and
submissions `[chat, chat, chat, emergency, chat]`: the first three chats
are admitted to execute, the emergency is enqueued into the empty queue
slot without evicting anything, and the final chat is rejected
(`AdmissionRejected`) because the queue holds a strictly higher-priority
entry. -/
theorem C3_admission_scenario :
    schedScenario =
      ([Decision.admitted, Decision.admitted, Decision.admitted, Decision.queued,
        Decision.rejected],
       { executingCount := 3, queue := [(3, Priority.emergency)],
         maxConcurrent := 3, maxQueueSize := 1 }) := by
  decide

/-- C9.  The cache key function is not injective: the distinct contents
`"Aa"` and `"BB"` have the same 32-bit rolling hash (2112, base-36
`1mo`), so their cache keys coincide, and a `serverOCR` request for `"BB"`
is answered from the cache with the result stored for `"Aa"` (the value 7)
without any dispatch — even though the network would have returned a
different value (99). -/
theorem C9_cache_key_collision :
    "Aa" ≠ "BB"
    ∧ hashString "Aa" = hashString "BB"
    ∧ generateCacheKey "ocr" "Aa" "en" = generateCacheKey "ocr" "BB" "en"
    ∧ serverOCR probeNone capsNone (ReqOutcome.reply 0 true 200 99) "BB" "en" true
        clientC9 = (Except.ok 7, clientC9, false) := by
  refine ⟨by decide, by decide, by decide, rfl⟩

/-- C10.  A text-only `multimodalChat` (no image) never touches the vision
cache: the cache contents after the call are exactly those before it, and
the returned result does not depend on the cache contents at all —
whatever the `useCache` flag. -/
theorem C10_text_only_chat_cache_frame (probe : String → ProbeOutcome)
    (caps : String → Option CapData) (post : ReqOutcome V) (text : String)
    (uc : Bool) (s : ClientState V) (c2 : List (String × V)) :
    (multimodalChat probe caps post text none uc s).2.1.visionCache = s.visionCache
    ∧ (multimodalChat probe caps post text none uc
        { s with visionCache := c2 }).1
      = (multimodalChat probe caps post text none uc s).1 := by
  constructor
  · rw [multimodalChat_noImage]
    exact makeRequest_visionCache probe caps post endpointMultimodalChat none s
  · rw [multimodalChat_noImage, multimodalChat_noImage]
    exact makeRequest_fst_setCache probe caps post endpointMultimodalChat none s c2

/-- C4.  Station discovery: (i) the status probe of `testConnection`
rejects any response arriving at or after its 3000 ms budget; (ii) the
persisted last-known address, when present, is always the first URL
probed; (iii) if some URL in the ordered probe list (persisted address,
then `commonIPs`, then mDNS names) passes the probe, the first such URL is
adopted as the station, marked connected, and persisted, and the probe
trace is exactly the prefix of failures followed by that URL; (iv) if
every candidate fails, discovery returns `false`, the previous station URL
is left unadopted and the client is marked disconnected, after probing the
entire list. -/
theorem C4_station_discovery (probe : String → ProbeOutcome)
    (caps : String → Option CapData) (s : ClientState V) :
    (∀ url r ok st, probe url = ProbeOutcome.response r ok st → 3000 ≤ r →
        testConnection probe url = false)
    ∧ (∀ saved, s.savedStationURL = some saved →
        ((detectStation probe caps s).2.2).head? = some saved)
    ∧ (∀ u, (probeOrder s).find? (fun x => testConnection probe x) = some u →
        (detectStation probe caps s).1 = true
        ∧ (detectStation probe caps s).2.1.stationURL = some u
        ∧ (detectStation probe caps s).2.1.isConnected = true
        ∧ (detectStation probe caps s).2.1.savedStationURL = some u
        ∧ (detectStation probe caps s).2.2 =
            (probeOrder s).takeWhile (fun x => !(testConnection probe x)) ++ [u])
    ∧ ((probeOrder s).find? (fun x => testConnection probe x) = none →
        detectStation probe caps s = (false, { s with isConnected := false }, probeOrder s)) := by
  refine ⟨?_, ?_, ?_, ?_⟩
  · intro url r ok st hpr hge
    simp only [testConnection, hpr]
    rw [if_pos hge]
  · intro saved hs
    exact detectStation_probes_saved_first probe caps s saved hs
  · intro u hf
    have h := detectStation_found probe caps s u hf
    exact ⟨h.1, h.2.1, h.2.2.1, h.2.2.2.1, h.2.2.2.2.2.2.2.2.2⟩
  · intro hf
    exact detectStation_none probe caps s hf

/-- C4 (witness): on a fresh client with no persisted address, discovery
skips the unreachable candidates, adopts the first reachable one and
persists it. -/
theorem C4_witness :
    (detectStation probeC4 capsNone (initClient (V := Nat) none none)).1 = true
    ∧ (detectStation probeC4 capsNone (initClient (V := Nat) none none)).2.1.stationURL
        = some "http://192.168.1.200:8080"
    ∧ (detectStation probeC4 capsNone (initClient (V := Nat) none none)).2.1.savedStationURL
        = some "http://192.168.1.200:8080" := by
  have h := (C4_station_discovery probeC4 capsNone (initClient (V := Nat) none none)).2.2.1
    "http://192.168.1.200:8080" (by decide)
  exact ⟨h.1, h.2.1, h.2.2.2.1⟩

/-- C5.  Timeout tiers of a freshly constructed, connected client: the
translation budget is 900000 ms, the standard and vision budgets are
600000 ms, and translation's is the strictly largest.  A chat dispatch
whose response arrives at or after 600000 ms times out, while one arriving
earlier succeeds; a translation dispatch times out only at 900000 ms —
the two classes run under independently configured budgets.  Vision
(`serverOCR`) and multimodal-chat dispatches run under the dedicated
vision budget. -/
theorem C5_timeout_tiers (probe : String → ProbeOutcome)
    (caps : String → Option CapData) (saved ai : Option String) (url : String) :
    (connClientAt (V := V) saved ai url).translationTimeout = 900000
    ∧ (connClientAt (V := V) saved ai url).timeout = 600000
    ∧ (connClientAt (V := V) saved ai url).visionTimeout = 600000
    ∧ (600000 : Nat) < 900000
    ∧ (∀ (d : Nat) (ok : Bool) (st : Nat) (body : α) (msg : String), 600000 ≤ d →
        (chatWithGemma probe caps (ReqOutcome.reply d ok st body) msg
          (connClientAt (V := V) saved ai url)).1 = Except.error RequestError.timeout)
    ∧ (∀ (d : Nat) (st : Nat) (body : α) (msg : String), d < 600000 →
        (chatWithGemma probe caps (ReqOutcome.reply d true st body) msg
          (connClientAt (V := V) saved ai url)).1 = Except.ok body)
    ∧ (∀ (d : Nat) (ok : Bool) (st : Nat) (body : TranslateResp)
        (text fl tl cx : String), 900000 ≤ d →
        (translate probe caps (ReqOutcome.reply d ok st body) text fl tl cx
          (connClientAt (V := V) saved ai url)).1 = Except.error RequestError.timeout)
    ∧ (∀ (d : Nat) (st : Nat) (body : TranslateResp) (text fl tl cx : String),
        d < 900000 →
        ∃ r, (translate probe caps (ReqOutcome.reply d true st body) text fl tl cx
          (connClientAt (V := V) saved ai url)).1 = Except.ok r)
    ∧ (∀ (d : Nat) (ok : Bool) (st : Nat) (body : V) (img lang : String), 600000 ≤ d →
        (serverOCR probe caps (ReqOutcome.reply d ok st body) img lang true
          (connClientAt (V := V) saved ai url)).1 = Except.error RequestError.timeout)
    ∧ (∀ (d : Nat) (ok : Bool) (st : Nat) (body : V) (text img : String), 600000 ≤ d →
        (multimodalChat probe caps (ReqOutcome.reply d ok st body) text (some img) true
          (connClientAt (V := V) saved ai url)).1 = Except.error RequestError.timeout) := by
  refine ⟨rfl, rfl, rfl, by omega, ?_, ?_, ?_, ?_, ?_, ?_⟩
  · intro d ok st body msg hd
    have hmc := makeRequest_connected probe caps (ReqOutcome.reply d ok st body)
      endpointChat none (connClientAt (V := V) saved ai url) rfl rfl
    simp only [chatWithGemma, hmc]
    rw [show actualTimeoutFor (connClientAt (V := V) saved ai url) endpointChat none
      = 600000 from rfl]
    simp only [runFetch]
    rw [if_pos hd]
  · intro d st body msg hd
    have hmc := makeRequest_connected probe caps (ReqOutcome.reply d true st body)
      endpointChat none (connClientAt (V := V) saved ai url) rfl rfl
    simp only [chatWithGemma, hmc]
    rw [show actualTimeoutFor (connClientAt (V := V) saved ai url) endpointChat none
      = 600000 from rfl]
    simp only [runFetch]
    rw [if_neg (Nat.not_le.mpr hd)]
    rfl
  · intro d ok st body text fl tl cx hd
    have hmc := makeRequest_connected probe caps (ReqOutcome.reply d ok st body)
      endpointTranslate (some (connClientAt (V := V) saved ai url).translationTimeout)
      (connClientAt (V := V) saved ai url) rfl rfl
    simp only [translate, hmc]
    rw [show actualTimeoutFor (connClientAt (V := V) saved ai url) endpointTranslate
      (some (connClientAt (V := V) saved ai url).translationTimeout) = 900000 from rfl]
    simp only [runFetch]
    rw [if_pos hd]
  · intro d st body text fl tl cx hd
    have hmc := makeRequest_connected probe caps (ReqOutcome.reply d true st body)
      endpointTranslate (some (connClientAt (V := V) saved ai url).translationTimeout)
      (connClientAt (V := V) saved ai url) rfl rfl
    cases hb : body.translated_text with
    | none =>
      refine ⟨TranslateResult.raw body, ?_⟩
      simp only [translate, hmc]
      rw [show actualTimeoutFor (connClientAt (V := V) saved ai url) endpointTranslate
        (some (connClientAt (V := V) saved ai url).translationTimeout) = 900000 from rfl]
      simp only [runFetch]
      rw [if_neg (Nat.not_le.mpr hd)]
      simp [hb]
    | some tr =>
      by_cases ht : tr = ""
      · refine ⟨TranslateResult.raw body, ?_⟩
        simp only [translate, hmc]
        rw [show actualTimeoutFor (connClientAt (V := V) saved ai url) endpointTranslate
          (some (connClientAt (V := V) saved ai url).translationTimeout) = 900000 from rfl]
        simp only [runFetch]
        rw [if_neg (Nat.not_le.mpr hd)]
        simp [hb, ht]
      · refine ⟨TranslateResult.transformed tr body.from_language body.to_language, ?_⟩
        simp only [translate, hmc]
        rw [show actualTimeoutFor (connClientAt (V := V) saved ai url) endpointTranslate
          (some (connClientAt (V := V) saved ai url).translationTimeout) = 900000 from rfl]
        simp only [runFetch]
        rw [if_neg (Nat.not_le.mpr hd)]
        simp [hb, ht]
  · intro d ok st body img lang hd
    have hmc := makeRequest_connected probe caps (ReqOutcome.reply d ok st body)
      endpointVisionOCR none (connClientAt (V := V) saved ai url) rfl rfl
    simp only [serverOCR, mapGet, List.find?, Option.map, if_true, hmc]
    rw [show actualTimeoutFor (connClientAt (V := V) saved ai url) endpointVisionOCR none
      = 600000 from rfl]
    simp only [runFetch]
    rw [if_pos hd]
  · intro d ok st body text img hd
    have hmc := makeRequest_connected probe caps (ReqOutcome.reply d ok st body)
      endpointMultimodalChat none (connClientAt (V := V) saved ai url) rfl rfl
    simp only [multimodalChat, mapGet, List.find?, Option.map, Option.bind, if_true, hmc]
    rw [show actualTimeoutFor (connClientAt (V := V) saved ai url) endpointMultimodalChat none
      = 600000 from rfl]
    simp only [runFetch]
    rw [if_pos hd]

/-- C5 (witness): with a 700000 ms reply, a chat dispatch times out at its
600000 ms budget while a translation dispatch, under its own 900000 ms
budget, succeeds. -/
theorem C5_witness :
    (chatWithGemma probeNone capsNone (ReqOutcome.reply 700000 true 200 (0 : Nat)) "hello"
        (connClientAt (V := Nat) none none "http://localhost:8080")).1
      = Except.error RequestError.timeout
    ∧ (translate probeNone capsNone
        (ReqOutcome.reply 700000 true 200
          (TranslateResp.mk (some "hola") (some "en") (some "es")))
        "hi" "en" "es" "general"
        (connClientAt (V := Nat) none none "http://localhost:8080")).1
      = Except.ok (TranslateResult.transformed "hola" (some "en") (some "es")) := by
  have h := C5_timeout_tiers (V := Nat) (α := Nat) probeNone capsNone none none
    "http://localhost:8080"
  exact ⟨h.2.2.2.2.1 700000 true 200 0 "hello" (by omega), rfl⟩

/-- C6.  Cache capacity invariant: starting from a freshly constructed
client, any sequence of `cacheVisionResult` insertions leaves at most 50
cached entries; and an insertion performed when the cache is at capacity
evicts exactly the oldest-inserted entry — the resulting cache is the old
cache minus its first entry, with the new entry set. -/
theorem C6_cache_capacity :
    (∀ (saved ai : Option String) (ops : List (String × V)),
        (applyInserts (initClient saved ai) ops).visionCache.length ≤ 50)
    ∧ ∀ (s : ClientState V) (k : String) (v : V) (e : String × V)
        (rest : List (String × V)),
        s.visionCache = e :: rest →
        (rest.all fun p => p.1 != e.1) = true →
        s.visionCache.length = s.maxCacheSize →
        (cacheVisionResult s k v).visionCache = mapSet rest k v := by
  constructor
  · intro saved ai ops
    have h := applyInserts_bounded ops (initClient (V := V) saved ai)
      (by simp [initClient]) (by simp [initClient])
    simpa [initClient] using h
  · intro s k v e rest hc hnd hlen
    exact cacheVisionResult_at_capacity s k v e rest hc hnd hlen

/-- C6 (witness): inserting into the full two-entry cache evicts exactly
the oldest entry `("a", 1)`; and a concrete insertion sequence from a
fresh client stays within 50 entries. -/
theorem C6_witness :
    (cacheVisionResult clientC6 "c" 3).visionCache = [("b", 2), ("c", 3)]
    ∧ (applyInserts (initClient (V := Nat) none none) [("x", 1)]).visionCache.length ≤ 50 := by
  have h := C6_cache_capacity (V := Nat)
  constructor
  · have h2 := h.2 clientC6 "c" 3 ("a", 1) [("b", 2)] rfl (by decide) rfl
    rw [h2]
    rfl
  · exact h.1 none none [("x", 1)]

/-- C7.  Cache round-trip for `serverOCR` with caching enabled:
(i) after any call returning `ok R`, the cache of the resulting state maps
the key derived from `(ocr, image, language)` to `R`; (ii) whenever the
cache maps that key to `R` — that is, before the entry is evicted — an
identical request returns `R` with the state untouched and without
reaching `makeRequest` (no network dispatch); (iii) hence re-issuing an
identical request immediately after a successful one is answered from the
cache.  The key derivation is a pure function of the
`(kind, content, aux)` triple, so identical resubmissions always produce
the same key. -/
theorem C7_cache_roundtrip (probe : String → ProbeOutcome)
    (caps : String → Option CapData) :
    (∀ (post : ReqOutcome V) (img lang : String) (R : V) (s s2 : ClientState V)
        (u : Bool),
        serverOCR probe caps post img lang true s = (Except.ok R, s2, u) →
        mapGet s2.visionCache (generateCacheKey "ocr" img lang) = some R)
    ∧ (∀ (post : ReqOutcome V) (img lang : String) (R : V) (s : ClientState V),
        mapGet s.visionCache (generateCacheKey "ocr" img lang) = some R →
        serverOCR probe caps post img lang true s = (Except.ok R, s, false))
    ∧ (∀ (post post2 : ReqOutcome V) (img lang : String) (R : V)
        (s s2 : ClientState V) (u : Bool),
        serverOCR probe caps post img lang true s = (Except.ok R, s2, u) →
        serverOCR probe caps post2 img lang true s2 = (Except.ok R, s2, false)) := by
  have hit : ∀ (post : ReqOutcome V) (img lang : String) (R : V) (s : ClientState V),
      mapGet s.visionCache (generateCacheKey "ocr" img lang) = some R →
      serverOCR probe caps post img lang true s = (Except.ok R, s, false) := by
    intro post img lang R s hget
    simp [serverOCR, hget]
  have store : ∀ (post : ReqOutcome V) (img lang : String) (R : V)
      (s s2 : ClientState V) (u : Bool),
      serverOCR probe caps post img lang true s = (Except.ok R, s2, u) →
      mapGet s2.visionCache (generateCacheKey "ocr" img lang) = some R := by
    intro post img lang R s s2 u hcall
    cases hget : mapGet s.visionCache (generateCacheKey "ocr" img lang) with
    | some v =>
      simp only [serverOCR, hget, if_true, Prod.mk.injEq, Except.ok.injEq] at hcall
      rw [← hcall.2.1, hget, hcall.1]
    | none =>
      simp only [serverOCR, hget, if_true] at hcall
      cases hmk : (makeRequest probe caps post endpointVisionOCR none s).1 with
      | ok result =>
        simp only [hmk, if_true, Prod.mk.injEq, Except.ok.injEq] at hcall
        rw [← hcall.2.1, ← hcall.1]
        exact mapGet_cacheVisionResult_self _ _ _
      | error e =>
        simp only [hmk, Prod.mk.injEq] at hcall
        exact absurd hcall.1 (by simp)
  refine ⟨store, hit, ?_⟩
  intro post post2 img lang R s s2 u hcall
  exact hit post2 img lang R s2 (store post img lang R s s2 u hcall)

/-- C7 (witness): the round-trip theorem applied to a concrete cached
entry — the identical request is answered from the cache (42), leaving the
state untouched and dispatching nothing, even though the network would
have answered 99. -/
theorem C7_witness :
    serverOCR probeNone capsNone (ReqOutcome.reply 0 true 200 99) "img" "en" true clientC7
      = (Except.ok 42, clientC7, false) := by
  exact (C7_cache_roundtrip probeNone capsNone).2.1 (ReqOutcome.reply 0 true 200 99)
    "img" "en" 42 clientC7 (by decide)

/-- C8 (counterexample).  The claim asserts that no dispatcher operation
replaces a failed dispatch with a fabricated plausible-looking success
value such as an empty result list, including family search.  On the code
this is false: `searchFamily` catches every dispatch error and returns
`[]` — indistinguishable from a genuine empty search result. -/
theorem C8_counterexample :
    (searchFamily probeNone capsNone (ReqOutcome.netError : ReqOutcome (SearchResp Nat))
        "q" clientConn).1 = []
    ∧ (searchFamily probeNone capsNone
        (ReqOutcome.reply 0 true 200 (SearchResp.mk (M := Nat) (some [])))
        "q" clientConn).1 = [] := by
  exact ⟨rfl, rfl⟩

/-- C8 (amended).  For a connected client, dispatch failures propagate to
the caller as typed errors for chat, translation, OCR (on a cache miss)
and multimodal chat — a dropped connection surfaces as `networkFailure`
and a non-ok response as `apiError` — but `searchFamily` is the
exception: it swallows every dispatch failure and returns the empty list. -/
theorem C8_typed_error_propagation (probe : String → ProbeOutcome)
    (caps : String → Option CapData) (s : ClientState V)
    (h1 : s.isConnected = true) (h2 : s.stationURL.isSome = true) :
    (∀ msg : String,
        (chatWithGemma probe caps (ReqOutcome.netError : ReqOutcome α) msg s).1 =
          Except.error RequestError.networkFailure)
    ∧ (∀ text fl tl cx : String,
        (translate probe caps (ReqOutcome.netError : ReqOutcome TranslateResp)
          text fl tl cx s).1 = Except.error RequestError.networkFailure)
    ∧ (∀ img lang : String,
        mapGet s.visionCache (generateCacheKey "ocr" img lang) = none →
        (serverOCR probe caps (ReqOutcome.netError : ReqOutcome V) img lang true s).1 =
          Except.error RequestError.networkFailure)
    ∧ (∀ text : String,
        (multimodalChat probe caps (ReqOutcome.netError : ReqOutcome V) text none true s).1 =
          Except.error RequestError.networkFailure)
    ∧ (∀ (d : Nat) (st : Nat) (body : α) (msg : String),
        d < actualTimeoutFor s endpointChat none →
        (chatWithGemma probe caps (ReqOutcome.reply d false st body) msg s).1 =
          Except.error (RequestError.apiError st))
    ∧ (∀ q : String,
        (searchFamily probe caps (ReqOutcome.netError : ReqOutcome (SearchResp M)) q s).1 = []
        ∧ ∀ (d : Nat) (st : Nat) (body : SearchResp M),
            d < actualTimeoutFor s endpointSearch none →
            (searchFamily probe caps (ReqOutcome.reply d false st body) q s).1 = []) := by
  refine ⟨?_, ?_, ?_, ?_, ?_, ?_⟩
  · intro msg
    have hmc := makeRequest_connected probe caps (ReqOutcome.netError : ReqOutcome α)
      endpointChat none s h1 h2
    simp only [chatWithGemma, hmc]
    rfl
  · intro text fl tl cx
    have hmc := makeRequest_connected probe caps
      (ReqOutcome.netError : ReqOutcome TranslateResp) endpointTranslate
      (some s.translationTimeout) s h1 h2
    simp only [translate, hmc]
    rfl
  · intro img lang hget
    have hmc := makeRequest_connected probe caps (ReqOutcome.netError : ReqOutcome V)
      endpointVisionOCR none s h1 h2
    simp only [serverOCR, hget, if_true, hmc]
    rfl
  · intro text
    rw [multimodalChat_noImage]
    have hmc := makeRequest_connected probe caps (ReqOutcome.netError : ReqOutcome V)
      endpointMultimodalChat none s h1 h2
    rw [hmc]
    rfl
  · intro d st body msg hd
    have hmc := makeRequest_connected probe caps (ReqOutcome.reply d false st body)
      endpointChat none s h1 h2
    simp only [chatWithGemma, hmc]
    simp only [runFetch]
    rw [if_neg (Nat.not_le.mpr hd)]
    rfl
  · intro q
    constructor
    · have hmc := makeRequest_connected probe caps
        (ReqOutcome.netError : ReqOutcome (SearchResp M)) endpointSearch none s h1 h2
      simp only [searchFamily, hmc]
      rfl
    · intro d st body hd
      have hmc := makeRequest_connected probe caps (ReqOutcome.reply d false st body)
        endpointSearch none s h1 h2
      simp only [searchFamily, hmc]
      simp only [runFetch]
      rw [if_neg (Nat.not_le.mpr hd)]
      rfl

/-- C8 (witness): the amended theorem applied to a concrete connected
client — chat surfaces a dropped connection as a typed `networkFailure`,
while family search swallows the same failure and returns `[]`. -/
theorem C8_witness :
    (chatWithGemma probeNone capsNone (ReqOutcome.netError : ReqOutcome Nat) "hello"
        clientConn).1 = Except.error RequestError.networkFailure
    ∧ (searchFamily probeNone capsNone (ReqOutcome.netError : ReqOutcome (SearchResp Nat))
        "q2" clientConn).1 = [] := by
  have h := C8_typed_error_propagation (α := Nat) (M := Nat) probeNone capsNone
    clientConn rfl rfl
  exact ⟨h.1 "hello", (h.2.2.2.2.2 "q2").1⟩

end GoogleConnect
